import Mathlib

/-
Verification of the ChemcrowToolkit adapter (src/utu/tools/chemcrow_toolkit.py).

The adapter resolves credentials from a configuration mapping with environment
fallback (Python `or`, i.e. truthiness-based), builds one handle per chemistry
capability (optional handles are `None` when the gating credential is absent),
and exposes one method per capability that either delegates to the handle or
returns a fixed unavailable string.

Embedding choices:
- Python string-or-None values are `Option String`; Python truthiness of such a
  value (`None` and `""` are falsy) is `pyTruthy`; Python `a or b` is `pyOr`.
- A chemcrow tool instance is modelled by its `_run` behaviour, a function
  `String → Except String PyValue`: `Except.error` models a raised exception,
  `PyValue` models the (dynamically typed) returned object.
- The external chemcrow library and the `ChatOpenAI` constructor are a
  parameter `ChemcrowLib` of constructor functions; `ChatOpenAI` may fail
  (`Except`), mirroring the one construction-time failure of the adapter.
- `ChemcrowToolkit.init` is the translation of `ChemcrowToolkit.__init__`;
  the method definitions below it translate the `@register_tool` methods.
-/

/-- A dynamically typed Python value returned by a chemcrow tool `_run`:
a string, an integer-like number, or Python `None`. -/
inductive PyValue where
  | str (s : String)
  | num (n : Int)
  | noneV
deriving DecidableEq, Repr

/-- Result of calling a chemcrow tool `_run`: `Except.error` models a raised
exception (with its message), `Except.ok` the returned value. -/
abbrev PyResult := Except String PyValue

/-- The `_run` behaviour of one constructed chemcrow tool instance. -/
abbrev RunFn := String → PyResult

/-- Whether a `PyValue` is a Python `str` (`isinstance(result, str)`). -/
def PyValue.isStr : PyValue → Bool
  | PyValue.str _ => true
  | _ => false

/-- Python `str(v)` for the modelled values. -/
def pyStr : PyValue → String
  | PyValue.str s => s
  | PyValue.num n => toString n
  | PyValue.noneV => "None"

/-- A `PyResult` whose successful value (if any) is textual. -/
def textualResult : PyResult → Bool
  | Except.ok v => PyValue.isStr v
  | Except.error _ => true

/-- Python truthiness of a string-or-None value: `None` and `""` are falsy. -/
def pyTruthy : Option String → Bool
  | none => false
  | some s => !s.isEmpty

/-- Python `a or b` on string-or-None values: `a` if truthy, else `b`. -/
def pyOr (a b : Option String) : Option String :=
  if pyTruthy a then a else b

/-- Whether an `Except` is a success. -/
def exceptIsOk {ε α : Type} : Except ε α → Bool
  | Except.ok _ => true
  | Except.error _ => false

/-- The recognized keys of the toolkit configuration mapping
(`self.config.config`), each `none` when absent. `local_rxn` defaults to
`False` at the use site, `llm_model` to `"gpt-3.5-turbo"`, `temperature`
to `0.1`. -/
structure ToolkitConfigMap where
  openai_api_key : Option String := none
  llm_model : Option String := none
  openai_api_base : Option String := none
  temperature : Option Rat := none
  serp_api_key : Option String := none
  chemspace_api_key : Option String := none
  rxn4chem_api_key : Option String := none
  semantic_scholar_api_key : Option String := none
  local_rxn : Option Bool := none
deriving DecidableEq, Repr

/-- The environment variables read by `__init__` via `os.getenv`. -/
structure Env where
  OPENAI_API_KEY : Option String := none
  SERP_API_KEY : Option String := none
  CHEMSPACE_API_KEY : Option String := none
  RXN4CHEM_API_KEY : Option String := none
  SEMANTIC_SCHOLAR_API_KEY : Option String := none
deriving DecidableEq, Repr

/-- The `self.api_keys` dict built at lines 51-60 of the source. -/
structure ApiKeys where
  OPENAI_API_KEY : Option String := none
  SERP_API_KEY : Option String := none
  CHEMSPACE_API_KEY : Option String := none
  RXN4CHEM_API_KEY : Option String := none
  SEMANTIC_SCHOLAR_API_KEY : Option String := none
deriving DecidableEq, Repr

/-- The arguments passed to the `ChatOpenAI` constructor (lines 43-48). -/
structure LLMArgs where
  model_name : String
  openai_api_key : Option String
  openai_api_base : Option String
  temperature : Rat
deriving DecidableEq, Repr

/-- The external chemcrow library plus the `ChatOpenAI` constructor, as the
adapter consumes them: one constructor per tool class, taking the credential
arguments the adapter passes and yielding the instance's `_run` behaviour.
`ChatOpenAI` may fail (the constructor can raise); its result is an opaque
client handle (`Nat`) fed to the LLM-dependent tool constructors. -/
structure ChemcrowLib where
  ChatOpenAI : LLMArgs → Except String Nat
  Query2CAS : RunFn
  Query2SMILES : Option String → RunFn
  SMILES2Name : RunFn
  MolSimilarity : RunFn
  SMILES2Weight : RunFn
  FuncGroups : RunFn
  PatentCheck : RunFn
  ExplosiveCheck : RunFn
  ControlChemCheck : RunFn
  SimilarControlChemCheck : RunFn
  SafetySummary : Nat → RunFn
  Scholar2ResultLLM : Nat → Option String → Option String → RunFn
  GetMoleculePrice : Option String → RunFn
  WebSearch : Option String → RunFn
  RXNPredict : Option String → RunFn
  RXNPredictLocal : RunFn
  RXNRetrosynthesis : Option String → Option String → RunFn
  RXNRetrosynthesisLocal : RunFn

/-- The adapter state after a successful `__init__`: the LLM client, the
resolved `api_keys`, one handle per always-available tool, and an optional
handle (`none` = Python `None`) per credential-gated tool. -/
structure ChemcrowToolkit where
  llm : Nat
  api_keys : ApiKeys
  query2cas_tool : RunFn
  query2smiles_tool : RunFn
  smiles2name_tool : RunFn
  mol_similarity_tool : RunFn
  smiles2weight_tool : RunFn
  func_groups_tool : RunFn
  patent_check_tool : RunFn
  explosive_check_tool : RunFn
  control_chem_check_tool : RunFn
  similar_control_chem_check_tool : RunFn
  safety_summary_tool : RunFn
  scholar_tool : RunFn
  molecule_price_tool : Option RunFn
  web_search_tool : Option RunFn
  rxn_predict_tool : Option RunFn
  rxn_retro_tool : Option RunFn

instance : Inhabited ChemcrowToolkit where
  default :=
    { llm := 0
      api_keys := {}
      query2cas_tool := fun _ => Except.error ""
      query2smiles_tool := fun _ => Except.error ""
      smiles2name_tool := fun _ => Except.error ""
      mol_similarity_tool := fun _ => Except.error ""
      smiles2weight_tool := fun _ => Except.error ""
      func_groups_tool := fun _ => Except.error ""
      patent_check_tool := fun _ => Except.error ""
      explosive_check_tool := fun _ => Except.error ""
      control_chem_check_tool := fun _ => Except.error ""
      similar_control_chem_check_tool := fun _ => Except.error ""
      safety_summary_tool := fun _ => Except.error ""
      scholar_tool := fun _ => Except.error ""
      molecule_price_tool := none
      web_search_tool := none
      rxn_predict_tool := none
      rxn_retro_tool := none }

/-- Resolution of the `ChatOpenAI` arguments (source lines 39-48):
`openai_api_key` is config-or-environment, `llm_model` defaults to
`"gpt-3.5-turbo"`, `openai_api_base` comes from config only,
`temperature` defaults to `0.1`. -/
def resolvedLLMArgs (cfg : ToolkitConfigMap) (env : Env) : LLMArgs :=
  { model_name := cfg.llm_model.getD "gpt-3.5-turbo"
    openai_api_key := pyOr cfg.openai_api_key env.OPENAI_API_KEY
    openai_api_base := cfg.openai_api_base
    temperature := cfg.temperature.getD (1 / 10 : Rat) }

/-- The `self.api_keys` dict (source lines 51-60): each entry is the
configuration value `or` the environment variable. -/
def resolveApiKeys (cfg : ToolkitConfigMap) (env : Env) : ApiKeys :=
  { OPENAI_API_KEY := pyOr cfg.openai_api_key env.OPENAI_API_KEY
    SERP_API_KEY := pyOr cfg.serp_api_key env.SERP_API_KEY
    CHEMSPACE_API_KEY := pyOr cfg.chemspace_api_key env.CHEMSPACE_API_KEY
    RXN4CHEM_API_KEY := pyOr cfg.rxn4chem_api_key env.RXN4CHEM_API_KEY
    SEMANTIC_SCHOLAR_API_KEY :=
      pyOr cfg.semantic_scholar_api_key env.SEMANTIC_SCHOLAR_API_KEY }

/-- The adapter state built by `__init__` once `ChatOpenAI` has succeeded
with client `c` (source lines 50-129): always-available tools
unconditionally, `molecule_price_tool` gated on the chemspace key,
`web_search_tool` on the serp key, and the two reaction tools on
`local_rxn` else the rxn4chem key (both `None` otherwise). -/
def buildState (lib : ChemcrowLib) (cfg : ToolkitConfigMap) (env : Env) (c : Nat) :
    ChemcrowToolkit :=
  let api_keys := resolveApiKeys cfg env
  let local_rxn := cfg.local_rxn.getD false
  { llm := c
    api_keys := api_keys
    query2cas_tool := lib.Query2CAS
    query2smiles_tool := lib.Query2SMILES api_keys.CHEMSPACE_API_KEY
    smiles2name_tool := lib.SMILES2Name
    mol_similarity_tool := lib.MolSimilarity
    smiles2weight_tool := lib.SMILES2Weight
    func_groups_tool := lib.FuncGroups
    patent_check_tool := lib.PatentCheck
    explosive_check_tool := lib.ExplosiveCheck
    control_chem_check_tool := lib.ControlChemCheck
    similar_control_chem_check_tool := lib.SimilarControlChemCheck
    safety_summary_tool := lib.SafetySummary c
    scholar_tool :=
      lib.Scholar2ResultLLM c api_keys.OPENAI_API_KEY api_keys.SEMANTIC_SCHOLAR_API_KEY
    molecule_price_tool :=
      if pyTruthy api_keys.CHEMSPACE_API_KEY then
        some (lib.GetMoleculePrice api_keys.CHEMSPACE_API_KEY)
      else none
    web_search_tool :=
      if pyTruthy api_keys.SERP_API_KEY then
        some (lib.WebSearch api_keys.SERP_API_KEY)
      else none
    rxn_predict_tool :=
      if local_rxn then some lib.RXNPredictLocal
      else if pyTruthy api_keys.RXN4CHEM_API_KEY then
        some (lib.RXNPredict api_keys.RXN4CHEM_API_KEY)
      else none
    rxn_retro_tool :=
      if local_rxn then some lib.RXNRetrosynthesisLocal
      else if pyTruthy api_keys.RXN4CHEM_API_KEY then
        some (lib.RXNRetrosynthesis api_keys.RXN4CHEM_API_KEY api_keys.OPENAI_API_KEY)
      else none }

/-- `ChemcrowToolkit.__init__`: builds the LLM client first (the only
failing step, its exception propagating to the caller), then the handles. -/
def ChemcrowToolkit.init (lib : ChemcrowLib) (cfg : ToolkitConfigMap) (env : Env) :
    Except String ChemcrowToolkit :=
  match lib.ChatOpenAI (resolvedLLMArgs cfg env) with
  | Except.error e => Except.error e
  | Except.ok c => Except.ok (buildState lib cfg env c)

/-- Method `query_molecule_cas` (line 150): delegates to `query2cas_tool`. -/
def ChemcrowToolkit.query_molecule_cas (tk : ChemcrowToolkit)
    (molecule_query : String) : PyResult :=
  tk.query2cas_tool molecule_query

/-- Method `convert_name_to_smiles` (line 171). -/
def ChemcrowToolkit.convert_name_to_smiles (tk : ChemcrowToolkit)
    (molecule_name : String) : PyResult :=
  tk.query2smiles_tool molecule_name

/-- Method `convert_smiles_to_name` (line 190). -/
def ChemcrowToolkit.convert_smiles_to_name (tk : ChemcrowToolkit)
    (smiles : String) : PyResult :=
  tk.smiles2name_tool smiles

/-- Method `get_molecular_weight` (lines 206-207):
`return str(result) if not isinstance(result, str) else result`. -/
def ChemcrowToolkit.get_molecular_weight (tk : ChemcrowToolkit)
    (smiles : String) : PyResult :=
  match tk.smiles2weight_tool smiles with
  | Except.error e => Except.error e
  | Except.ok result =>
    Except.ok (if result.isStr then result else PyValue.str (pyStr result))

/-- Method `get_functional_groups` (line 223). -/
def ChemcrowToolkit.get_functional_groups (tk : ChemcrowToolkit)
    (smiles : String) : PyResult :=
  tk.func_groups_tool smiles

/-- Method `check_molecule_similarity` (line 236): joins the two SMILES with
a space before delegating. -/
def ChemcrowToolkit.check_molecule_similarity (tk : ChemcrowToolkit)
    (smiles1 smiles2 : String) : PyResult :=
  tk.mol_similarity_tool (smiles1 ++ " " ++ smiles2)

/-- Method `check_patent` (line 248). -/
def ChemcrowToolkit.check_patent (tk : ChemcrowToolkit)
    (molecule_smiles : String) : PyResult :=
  tk.patent_check_tool molecule_smiles

/-- Method `check_explosive` (line 260). -/
def ChemcrowToolkit.check_explosive (tk : ChemcrowToolkit)
    (molecule_smiles : String) : PyResult :=
  tk.explosive_check_tool molecule_smiles

/-- Method `check_controlled_chemical` (line 272). -/
def ChemcrowToolkit.check_controlled_chemical (tk : ChemcrowToolkit)
    (molecule_smiles : String) : PyResult :=
  tk.control_chem_check_tool molecule_smiles

/-- Method `check_similar_controlled_chemicals` (line 284). -/
def ChemcrowToolkit.check_similar_controlled_chemicals (tk : ChemcrowToolkit)
    (molecule_smiles : String) : PyResult :=
  tk.similar_control_chem_check_tool molecule_smiles

/-- Method `get_safety_summary` (line 296). -/
def ChemcrowToolkit.get_safety_summary (tk : ChemcrowToolkit)
    (molecule_query : String) : PyResult :=
  tk.safety_summary_tool molecule_query

/-- Method `search_scholarly_literature` (line 310): unconditional
delegation to `scholar_tool` (no presence check, the handle always exists). -/
def ChemcrowToolkit.search_scholarly_literature (tk : ChemcrowToolkit)
    (query : String) : PyResult :=
  tk.scholar_tool query

/-- The fixed string returned by `web_search_chemical` when the handle is
absent (line 323). -/
def webSearchUnavailableMsg : String :=
  "Web search tool not available. Set SERP_API_KEY environment variable."

/-- The fixed string returned by `get_molecule_price` when the handle is
absent (line 337). -/
def moleculePriceUnavailableMsg : String :=
  "Molecule price lookup not available. Set CHEMSPACE_API_KEY environment variable."

/-- The fixed string returned by `predict_reaction` when the handle is
absent (lines 351-354). -/
def predictReactionUnavailableMsg : String :=
  "Reaction prediction tool not available. Set RXN4CHEM_API_KEY environment variable or enable local_rxn."

/-- The fixed string returned by `retrosynthesis_planning` when the handle
is absent (lines 368-371). -/
def retrosynthesisUnavailableMsg : String :=
  "Retrosynthesis tool not available. Set RXN4CHEM_API_KEY environment variable or enable local_rxn."

/-- Method `web_search_chemical` (lines 322-324): fixed string when the
handle is `None`, else delegation. -/
def ChemcrowToolkit.web_search_chemical (tk : ChemcrowToolkit)
    (query : String) : PyResult :=
  match tk.web_search_tool with
  | none => Except.ok (PyValue.str webSearchUnavailableMsg)
  | some t => t query

/-- Method `get_molecule_price` (lines 336-338). -/
def ChemcrowToolkit.get_molecule_price (tk : ChemcrowToolkit)
    (molecule_smiles : String) : PyResult :=
  match tk.molecule_price_tool with
  | none => Except.ok (PyValue.str moleculePriceUnavailableMsg)
  | some t => t molecule_smiles

/-- Method `predict_reaction` (lines 350-355). -/
def ChemcrowToolkit.predict_reaction (tk : ChemcrowToolkit)
    (reactants_smiles : String) : PyResult :=
  match tk.rxn_predict_tool with
  | none => Except.ok (PyValue.str predictReactionUnavailableMsg)
  | some t => t reactants_smiles

/-- Method `retrosynthesis_planning` (lines 367-372). -/
def ChemcrowToolkit.retrosynthesis_planning (tk : ChemcrowToolkit)
    (target_smiles : String) : PyResult :=
  match tk.rxn_retro_tool with
  | none => Except.ok (PyValue.str retrosynthesisUnavailableMsg)
  | some t => t target_smiles

/-- A concrete stand-in library for evaluating the adapter: every tool
returns a distinctive tagged string, `SMILES2Weight` returns a numeric
value (as the real weight computation can), and `ChatOpenAI` succeeds. -/
def sampleLib : ChemcrowLib :=
  { ChatOpenAI := fun _ => Except.ok 7
    Query2CAS := fun q => Except.ok (PyValue.str ("cas:" ++ q))
    Query2SMILES := fun _ q => Except.ok (PyValue.str ("smiles:" ++ q))
    SMILES2Name := fun q => Except.ok (PyValue.str ("name:" ++ q))
    MolSimilarity := fun q => Except.ok (PyValue.str ("sim:" ++ q))
    SMILES2Weight := fun _ => Except.ok (PyValue.num 180)
    FuncGroups := fun q => Except.ok (PyValue.str ("fg:" ++ q))
    PatentCheck := fun q => Except.ok (PyValue.str ("patent:" ++ q))
    ExplosiveCheck := fun q => Except.ok (PyValue.str ("expl:" ++ q))
    ControlChemCheck := fun q => Except.ok (PyValue.str ("ctrl:" ++ q))
    SimilarControlChemCheck := fun q => Except.ok (PyValue.str ("simctrl:" ++ q))
    SafetySummary := fun _ q => Except.ok (PyValue.str ("safety:" ++ q))
    Scholar2ResultLLM := fun _ _ _ q => Except.ok (PyValue.str ("scholar:" ++ q))
    GetMoleculePrice := fun _ q => Except.ok (PyValue.str ("price:" ++ q))
    WebSearch := fun _ q => Except.ok (PyValue.str ("web:" ++ q))
    RXNPredict := fun _ q => Except.ok (PyValue.str ("rxn:" ++ q))
    RXNPredictLocal := fun q => Except.ok (PyValue.str ("rxnlocal:" ++ q))
    RXNRetrosynthesis := fun _ _ q => Except.ok (PyValue.str ("retro:" ++ q))
    RXNRetrosynthesisLocal := fun q => Except.ok (PyValue.str ("retrolocal:" ++ q)) }

/-- An adapter built from `sampleLib` with empty configuration and empty
environment: no optional credential is present. -/
def tk0 : ChemcrowToolkit :=
  ((ChemcrowToolkit.init sampleLib {} {}).toOption).getD default

/-- An adapter built with `local_rxn := true` and no reaction credential. -/
def tkLocal : ChemcrowToolkit :=
  ((ChemcrowToolkit.init sampleLib { local_rxn := some true } {}).toOption).getD default

/-- Configuration for the C4 counterexample: the serp credential is set in
the configuration, to the empty string. -/
def cfgC4 : ToolkitConfigMap := { serp_api_key := some "" }

/-- Environment for the C4 counterexample: the serp variable is set to a
different, non-empty value. -/
def envC4 : Env := { SERP_API_KEY := some "env-serp-key" }

/-- Configuration for the C4 amended-claim witness: all five credentials
set to non-empty values. -/
def cfgC4w : ToolkitConfigMap :=
  { openai_api_key := some "cfg-openai"
    serp_api_key := some "cfg-serp"
    chemspace_api_key := some "cfg-chemspace"
    rxn4chem_api_key := some "cfg-rxn"
    semantic_scholar_api_key := some "cfg-scholar" }

/-- Environment for the C4 amended-claim witness: all five variables set to
different values than the configuration. -/
def envC4w : Env :=
  { OPENAI_API_KEY := some "env-openai"
    SERP_API_KEY := some "env-serp"
    CHEMSPACE_API_KEY := some "env-chemspace"
    RXN4CHEM_API_KEY := some "env-rxn"
    SEMANTIC_SCHOLAR_API_KEY := some "env-scholar" }

/-- Library for the C5 counterexample: the CAS lookup returns a number, as
a dynamically typed underlying capability can. -/
def libC5 : ChemcrowLib :=
  { sampleLib with Query2CAS := fun _ => Except.ok (PyValue.num 5) }

/-- Adapter for the C5 counterexample. -/
def tkC5 : ChemcrowToolkit :=
  ((ChemcrowToolkit.init libC5 {} {}).toOption).getD default

/-- Configuration for the C6 counterexample: remote mode (local_rxn absent,
so false) with a reaction-service credential set. -/
def cfgC6 : ToolkitConfigMap := { rxn4chem_api_key := some "rxn-key" }

/-- Environment for the C6 counterexample: empty, in particular no OpenAI
credential anywhere. -/
def envC6 : Env := {}

/-- Adapter for the C6 counterexample. -/
def tkC6 : ChemcrowToolkit :=
  ((ChemcrowToolkit.init sampleLib cfgC6 envC6).toOption).getD default

instance : DecidableEq PyResult := fun a b =>
  match a, b with
  | Except.ok x, Except.ok y =>
    match decEq x y with
    | isTrue h => isTrue (h ▸ rfl)
    | isFalse h => isFalse (fun hh => h (Except.ok.inj hh))
  | Except.error x, Except.error y =>
    match decEq x y with
    | isTrue h => isTrue (h ▸ rfl)
    | isFalse h => isFalse (fun hh => h (Except.error.inj hh))
  | Except.ok _, Except.error _ => isFalse (fun hh => Except.noConfusion hh)
  | Except.error _, Except.ok _ => isFalse (fun hh => Except.noConfusion hh)

/-- Successful construction is exactly a successful `ChatOpenAI` call, and
the resulting state is `buildState` at the returned client. -/
theorem init_eq_ok (lib : ChemcrowLib) (cfg : ToolkitConfigMap) (env : Env)
    (tk : ChemcrowToolkit) :
    ChemcrowToolkit.init lib cfg env = Except.ok tk ↔
      ∃ c, lib.ChatOpenAI (resolvedLLMArgs cfg env) = Except.ok c ∧
        tk = buildState lib cfg env c := by
  unfold ChemcrowToolkit.init
  cases h : lib.ChatOpenAI (resolvedLLMArgs cfg env) <;> simp [h, eq_comm]

/-- Claim C1: with local_rxn false, each credential-gated method is fully
determined by its resolved credential: when the credential is absent
(falsy) the method returns the fixed capability-specific unavailable
string wrapped in a successful result, so it never raises; when present
it delegates to the bound tool. -/
theorem missing_credential_soft_failure (lib : ChemcrowLib) (cfg : ToolkitConfigMap)
    (env : Env) (tk : ChemcrowToolkit) (q : String)
    (hinit : ChemcrowToolkit.init lib cfg env = Except.ok tk)
    (hlocal : cfg.local_rxn.getD false = false) :
    tk.get_molecule_price q =
      (if pyTruthy (resolveApiKeys cfg env).CHEMSPACE_API_KEY then
        lib.GetMoleculePrice (resolveApiKeys cfg env).CHEMSPACE_API_KEY q
      else Except.ok (PyValue.str moleculePriceUnavailableMsg)) ∧
    tk.web_search_chemical q =
      (if pyTruthy (resolveApiKeys cfg env).SERP_API_KEY then
        lib.WebSearch (resolveApiKeys cfg env).SERP_API_KEY q
      else Except.ok (PyValue.str webSearchUnavailableMsg)) ∧
    tk.predict_reaction q =
      (if pyTruthy (resolveApiKeys cfg env).RXN4CHEM_API_KEY then
        lib.RXNPredict (resolveApiKeys cfg env).RXN4CHEM_API_KEY q
      else Except.ok (PyValue.str predictReactionUnavailableMsg)) ∧
    tk.retrosynthesis_planning q =
      (if pyTruthy (resolveApiKeys cfg env).RXN4CHEM_API_KEY then
        lib.RXNRetrosynthesis (resolveApiKeys cfg env).RXN4CHEM_API_KEY
          (resolveApiKeys cfg env).OPENAI_API_KEY q
      else Except.ok (PyValue.str retrosynthesisUnavailableMsg)) := by
  rw [init_eq_ok] at hinit
  obtain ⟨c, hc, rfl⟩ := hinit
  refine ⟨?_, ?_, ?_, ?_⟩
  · cases h : pyTruthy (resolveApiKeys cfg env).CHEMSPACE_API_KEY <;>
      simp [buildState, ChemcrowToolkit.get_molecule_price, h]
  · cases h : pyTruthy (resolveApiKeys cfg env).SERP_API_KEY <;>
      simp [buildState, ChemcrowToolkit.web_search_chemical, h]
  · cases h : pyTruthy (resolveApiKeys cfg env).RXN4CHEM_API_KEY <;>
      simp [buildState, ChemcrowToolkit.predict_reaction, hlocal, h]
  · cases h : pyTruthy (resolveApiKeys cfg env).RXN4CHEM_API_KEY <;>
      simp [buildState, ChemcrowToolkit.retrosynthesis_planning, hlocal, h]

/-- Witness for claim C1: the adapter built with no credentials at all
returns each of the four fixed unavailable strings successfully. -/
theorem missing_credential_soft_failure_witness :
    tk0.get_molecule_price "CCO" = Except.ok (PyValue.str moleculePriceUnavailableMsg) ∧
    tk0.web_search_chemical "CCO" = Except.ok (PyValue.str webSearchUnavailableMsg) ∧
    tk0.predict_reaction "CCO" = Except.ok (PyValue.str predictReactionUnavailableMsg) ∧
    tk0.retrosynthesis_planning "CCO" = Except.ok (PyValue.str retrosynthesisUnavailableMsg) := by
  have h := missing_credential_soft_failure sampleLib {} {} tk0 "CCO" rfl rfl
  refine ⟨?_, ?_, ?_, ?_⟩
  · rw [h.1]; rfl
  · rw [h.2.1]; rfl
  · rw [h.2.2.1]; rfl
  · rw [h.2.2.2]; rfl

/-- Claim C3: construction succeeds exactly when the ChatOpenAI client
builds, and a client-construction error is propagated verbatim to the
caller: the LLM client is the only hard failure at construction time. -/
theorem construction_fails_only_on_llm_client (lib : ChemcrowLib)
    (cfg : ToolkitConfigMap) (env : Env) :
    exceptIsOk (ChemcrowToolkit.init lib cfg env) =
      exceptIsOk (lib.ChatOpenAI (resolvedLLMArgs cfg env)) ∧
    ∀ e, (ChemcrowToolkit.init lib cfg env = Except.error e ↔
      lib.ChatOpenAI (resolvedLLMArgs cfg env) = Except.error e) := by
  unfold ChemcrowToolkit.init
  cases h : lib.ChatOpenAI (resolvedLLMArgs cfg env) <;> simp [h, exceptIsOk]

/-- Claim C7: with local_rxn true and no reaction-service credential, the
prediction handle is the local tool and predict_reaction delegates to it
rather than returning the unavailable message. -/
theorem predict_reaction_local_mode (lib : ChemcrowLib) (cfg : ToolkitConfigMap)
    (env : Env) (tk : ChemcrowToolkit) (q : String)
    (hinit : ChemcrowToolkit.init lib cfg env = Except.ok tk)
    (hlocal : cfg.local_rxn.getD false = true)
    (hr1 : cfg.rxn4chem_api_key = none) (hr2 : env.RXN4CHEM_API_KEY = none) :
    tk.rxn_predict_tool = some lib.RXNPredictLocal ∧
    tk.predict_reaction q = lib.RXNPredictLocal q := by
  rw [init_eq_ok] at hinit
  obtain ⟨c, hc, rfl⟩ := hinit
  simp [buildState, ChemcrowToolkit.predict_reaction, hlocal]

/-- Witness for claim C7 at a concrete local-mode adapter. -/
theorem predict_reaction_local_mode_witness :
    tkLocal.rxn_predict_tool = some sampleLib.RXNPredictLocal ∧
    tkLocal.predict_reaction "CCO" = Except.ok (PyValue.str "rxnlocal:CCO") := by
  have h := predict_reaction_local_mode sampleLib { local_rxn := some true } {}
    tkLocal "CCO" rfl rfl rfl rfl
  exact ⟨h.1, by rw [h.2]; rfl⟩

/-- Claim C8: the successful result of get_molecular_weight is always
textual; in particular when the underlying weight computation returns a
number it is converted with str before being returned. -/
theorem get_molecular_weight_stringifies (tk : ChemcrowToolkit) (q : String) (n : Int)
    (h : tk.smiles2weight_tool q = Except.ok (PyValue.num n)) :
    textualResult (tk.get_molecular_weight q) = true ∧
    tk.get_molecular_weight q = Except.ok (PyValue.str (toString n)) := by
  have h2 : tk.get_molecular_weight q = Except.ok (PyValue.str (toString n)) := by
    simp [ChemcrowToolkit.get_molecular_weight, h, PyValue.isStr, pyStr]
  exact ⟨by rw [h2]; rfl, h2⟩

/-- Witness for claim C8: the sample weight tool returns the number 180 and
the method returns the string form. -/
theorem get_molecular_weight_stringifies_witness :
    textualResult (tk0.get_molecular_weight "CC") = true ∧
    tk0.get_molecular_weight "CC" = Except.ok (PyValue.str "180") := by
  have h := get_molecular_weight_stringifies tk0 "CC" 180 rfl
  exact ⟨h.1, by rw [h.2]; rfl⟩

/-- Claim C9: after any successful construction, the reaction-prediction
and retrosynthesis handles are both present or both absent. -/
theorem rxn_handles_coupled (lib : ChemcrowLib) (cfg : ToolkitConfigMap)
    (env : Env) (tk : ChemcrowToolkit)
    (hinit : ChemcrowToolkit.init lib cfg env = Except.ok tk) :
    tk.rxn_predict_tool.isSome = tk.rxn_retro_tool.isSome := by
  rw [init_eq_ok] at hinit
  obtain ⟨c, hc, rfl⟩ := hinit
  cases hl : cfg.local_rxn.getD false <;>
    cases hk : pyTruthy (resolveApiKeys cfg env).RXN4CHEM_API_KEY <;>
      simp [buildState, hl, hk]

/-- Witness for claim C9 at the credential-free adapter. -/
theorem rxn_handles_coupled_witness :
    tk0.rxn_predict_tool.isSome = tk0.rxn_retro_tool.isSome :=
  rxn_handles_coupled sampleLib {} {} tk0 rfl

/-- Claim C2: after any successful construction, a gated handle is absent
exactly when its required credential (or mode) is missing, each gated
method branches on handle presence (fixed string on an absent handle,
delegation otherwise), and every other public method delegates through its
always-present handle. -/
theorem absent_handle_invariant (lib : ChemcrowLib) (cfg : ToolkitConfigMap)
    (env : Env) (tk : ChemcrowToolkit) (q r : String)
    (hinit : ChemcrowToolkit.init lib cfg env = Except.ok tk) :
    (tk.molecule_price_tool = none ↔
      pyTruthy (resolveApiKeys cfg env).CHEMSPACE_API_KEY = false) ∧
    (tk.web_search_tool = none ↔
      pyTruthy (resolveApiKeys cfg env).SERP_API_KEY = false) ∧
    (tk.rxn_predict_tool = none ↔
      (cfg.local_rxn.getD false = false ∧
        pyTruthy (resolveApiKeys cfg env).RXN4CHEM_API_KEY = false)) ∧
    (tk.rxn_retro_tool = none ↔
      (cfg.local_rxn.getD false = false ∧
        pyTruthy (resolveApiKeys cfg env).RXN4CHEM_API_KEY = false)) ∧
    (tk.get_molecule_price q = match tk.molecule_price_tool with
      | none => Except.ok (PyValue.str moleculePriceUnavailableMsg)
      | some t => t q) ∧
    (tk.web_search_chemical q = match tk.web_search_tool with
      | none => Except.ok (PyValue.str webSearchUnavailableMsg)
      | some t => t q) ∧
    (tk.predict_reaction q = match tk.rxn_predict_tool with
      | none => Except.ok (PyValue.str predictReactionUnavailableMsg)
      | some t => t q) ∧
    (tk.retrosynthesis_planning q = match tk.rxn_retro_tool with
      | none => Except.ok (PyValue.str retrosynthesisUnavailableMsg)
      | some t => t q) ∧
    (tk.get_molecular_weight q = match tk.smiles2weight_tool q with
      | Except.error e => Except.error e
      | Except.ok result =>
        Except.ok (if result.isStr then result else PyValue.str (pyStr result))) ∧
    tk.query_molecule_cas q = tk.query2cas_tool q ∧
    tk.convert_name_to_smiles q = tk.query2smiles_tool q ∧
    tk.convert_smiles_to_name q = tk.smiles2name_tool q ∧
    tk.get_functional_groups q = tk.func_groups_tool q ∧
    tk.check_molecule_similarity q r = tk.mol_similarity_tool (q ++ " " ++ r) ∧
    tk.check_patent q = tk.patent_check_tool q ∧
    tk.check_explosive q = tk.explosive_check_tool q ∧
    tk.check_controlled_chemical q = tk.control_chem_check_tool q ∧
    tk.check_similar_controlled_chemicals q = tk.similar_control_chem_check_tool q ∧
    tk.get_safety_summary q = tk.safety_summary_tool q ∧
    tk.search_scholarly_literature q = tk.scholar_tool q := by
  rw [init_eq_ok] at hinit
  obtain ⟨c, hc, rfl⟩ := hinit
  refine ⟨?_, ?_, ?_, ?_, rfl, rfl, rfl, rfl, rfl, rfl, rfl, rfl, rfl, rfl, rfl,
    rfl, rfl, rfl, rfl, rfl⟩
  · cases h : pyTruthy (resolveApiKeys cfg env).CHEMSPACE_API_KEY <;>
      simp [buildState, h]
  · cases h : pyTruthy (resolveApiKeys cfg env).SERP_API_KEY <;>
      simp [buildState, h]
  · cases hl : cfg.local_rxn.getD false <;>
      cases hk : pyTruthy (resolveApiKeys cfg env).RXN4CHEM_API_KEY <;>
        simp [buildState, hl, hk]
  · cases hl : cfg.local_rxn.getD false <;>
      cases hk : pyTruthy (resolveApiKeys cfg env).RXN4CHEM_API_KEY <;>
        simp [buildState, hl, hk]

/-- Witness for claim C2 at the credential-free adapter: absent handles
match missing credentials and the methods branch on presence. -/
theorem absent_handle_invariant_witness :
    (tk0.molecule_price_tool = none ↔
      pyTruthy (resolveApiKeys {} {}).CHEMSPACE_API_KEY = false) ∧
    (tk0.web_search_tool = none ↔
      pyTruthy (resolveApiKeys {} {}).SERP_API_KEY = false) ∧
    (tk0.get_molecule_price "CCO" = match tk0.molecule_price_tool with
      | none => Except.ok (PyValue.str moleculePriceUnavailableMsg)
      | some t => t "CCO") ∧
    tk0.query_molecule_cas "CCO" = tk0.query2cas_tool "CCO" := by
  obtain ⟨h1, h2, h3, h4, h5, h6, h7, h8, h9, h10, h11, h12, h13, h14, h15,
    h16, h17, h18, h19, h20⟩ := absent_handle_invariant sampleLib {} {} tk0 "CCO" "O" rfl
  exact ⟨h1, h2, h5, h10⟩

/-- Claim C10: the scholarly-search handle is constructed unconditionally:
even with the semantic-scholar credential absent it is the underlying tool
bound to the resolved credentials (the absent one passed through as None),
and the method always delegates to it, never returning a fixed
unavailable string of its own. -/
theorem scholar_unconditional_delegation (lib : ChemcrowLib) (cfg : ToolkitConfigMap)
    (env : Env) (tk : ChemcrowToolkit) (c : Nat) (q : String)
    (hinit : ChemcrowToolkit.init lib cfg env = Except.ok tk)
    (hc : lib.ChatOpenAI (resolvedLLMArgs cfg env) = Except.ok c)
    (h1 : cfg.semantic_scholar_api_key = none)
    (h2 : env.SEMANTIC_SCHOLAR_API_KEY = none) :
    tk.scholar_tool =
      lib.Scholar2ResultLLM c (pyOr cfg.openai_api_key env.OPENAI_API_KEY) none ∧
    tk.search_scholarly_literature q =
      lib.Scholar2ResultLLM c (pyOr cfg.openai_api_key env.OPENAI_API_KEY) none q := by
  rw [init_eq_ok] at hinit
  obtain ⟨c', hc', rfl⟩ := hinit
  rw [hc] at hc'
  obtain rfl : c = c' := Except.ok.inj hc'
  constructor
  · simp [buildState, ChemcrowToolkit.search_scholarly_literature, resolveApiKeys,
      h1, h2, pyOr, pyTruthy]
  · simp [buildState, ChemcrowToolkit.search_scholarly_literature, resolveApiKeys,
      h1, h2, pyOr, pyTruthy]

/-- Witness for claim C10 at the credential-free adapter: the scholar
handle exists with None credentials and the method returns the underlying
tool result. -/
theorem scholar_unconditional_delegation_witness :
    tk0.scholar_tool = sampleLib.Scholar2ResultLLM 7 none none ∧
    tk0.search_scholarly_literature "polymers" =
      Except.ok (PyValue.str "scholar:polymers") := by
  have h := scholar_unconditional_delegation sampleLib {} {} tk0 7 "polymers" rfl rfl rfl rfl
  exact ⟨by rw [h.1]; rfl, by rw [h.2]; rfl⟩

/-- Counterexample to claim C4: the configuration value and the environment
variable of the same logical purpose are both set, to different values, yet
the resolved credential is the environment value, because the resolution
uses Python `or` (truthiness) and the empty string is falsy: configuration
precedence does not hold unconditionally. -/
theorem config_precedence_counterexample :
    cfgC4.serp_api_key = some "" ∧
    envC4.SERP_API_KEY = some "env-serp-key" ∧
    cfgC4.serp_api_key ≠ envC4.SERP_API_KEY ∧
    (resolveApiKeys cfgC4 envC4).SERP_API_KEY = some "env-serp-key" ∧
    (resolveApiKeys cfgC4 envC4).SERP_API_KEY ≠ cfgC4.serp_api_key := by
  refine ⟨rfl, rfl, by decide, rfl, by decide⟩

/-- Claim C4 as amended: a non-empty (truthy) configuration credential
takes precedence over the environment variable of the same logical
purpose, whatever the environment holds; the environment is only a
fallback for an absent or empty configuration value. -/
theorem config_precedence_amended (cfg : ToolkitConfigMap) (env : Env)
    (s1 s2 s3 s4 s5 : String)
    (h1 : cfg.openai_api_key = some s1) (n1 : s1 ≠ "")
    (h2 : cfg.serp_api_key = some s2) (n2 : s2 ≠ "")
    (h3 : cfg.chemspace_api_key = some s3) (n3 : s3 ≠ "")
    (h4 : cfg.rxn4chem_api_key = some s4) (n4 : s4 ≠ "")
    (h5 : cfg.semantic_scholar_api_key = some s5) (n5 : s5 ≠ "") :
    (resolveApiKeys cfg env).OPENAI_API_KEY = some s1 ∧
    (resolveApiKeys cfg env).SERP_API_KEY = some s2 ∧
    (resolveApiKeys cfg env).CHEMSPACE_API_KEY = some s3 ∧
    (resolveApiKeys cfg env).RXN4CHEM_API_KEY = some s4 ∧
    (resolveApiKeys cfg env).SEMANTIC_SCHOLAR_API_KEY = some s5 := by
  simp [resolveApiKeys, pyOr, pyTruthy, h1, h2, h3, h4, h5,
    String.isEmpty_iff, n1, n2, n3, n4, n5]

/-- Witness for the amended claim C4: with every credential set in both
places to different values, each resolved credential is the (non-empty)
configuration value. -/
theorem config_precedence_amended_witness :
    (resolveApiKeys cfgC4w envC4w).OPENAI_API_KEY = some "cfg-openai" ∧
    (resolveApiKeys cfgC4w envC4w).SERP_API_KEY = some "cfg-serp" ∧
    (resolveApiKeys cfgC4w envC4w).CHEMSPACE_API_KEY = some "cfg-chemspace" ∧
    (resolveApiKeys cfgC4w envC4w).RXN4CHEM_API_KEY = some "cfg-rxn" ∧
    (resolveApiKeys cfgC4w envC4w).SEMANTIC_SCHOLAR_API_KEY = some "cfg-scholar" :=
  config_precedence_amended cfgC4w envC4w
    "cfg-openai" "cfg-serp" "cfg-chemspace" "cfg-rxn" "cfg-scholar"
    rfl (by decide) rfl (by decide) rfl (by decide) rfl (by decide) rfl (by decide)

/-- Counterexample to claim C5: `query_molecule_cas` returns the underlying
result unchanged, so when the underlying capability returns a number the
method returns a non-string value: no conversion to its string
representation is performed outside get_molecular_weight. -/
theorem always_string_counterexample :
    libC5.Query2CAS "aspirin" = Except.ok (PyValue.num 5) ∧
    tkC5.query_molecule_cas "aspirin" = Except.ok (PyValue.num 5) ∧
    textualResult (tkC5.query_molecule_cas "aspirin") = false := by
  exact ⟨rfl, rfl, rfl⟩

/-- Claim C5 as amended: only get_molecular_weight converts a non-textual
underlying result to its string representation (its successful result is
always textual); every other exposed method returns the underlying
capability's result unchanged — or the fixed unavailable string when its
handle is absent — so its result is textual exactly when the value it
passes through is. -/
theorem always_string_amended (tk : ChemcrowToolkit) (q r : String) :
    textualResult (tk.get_molecular_weight q) = true ∧
    tk.query_molecule_cas q = tk.query2cas_tool q ∧
    tk.convert_name_to_smiles q = tk.query2smiles_tool q ∧
    tk.convert_smiles_to_name q = tk.smiles2name_tool q ∧
    tk.get_functional_groups q = tk.func_groups_tool q ∧
    tk.check_molecule_similarity q r = tk.mol_similarity_tool (q ++ " " ++ r) ∧
    tk.check_patent q = tk.patent_check_tool q ∧
    tk.check_explosive q = tk.explosive_check_tool q ∧
    tk.check_controlled_chemical q = tk.control_chem_check_tool q ∧
    tk.check_similar_controlled_chemicals q = tk.similar_control_chem_check_tool q ∧
    tk.get_safety_summary q = tk.safety_summary_tool q ∧
    tk.search_scholarly_literature q = tk.scholar_tool q ∧
    (tk.get_molecule_price q = match tk.molecule_price_tool with
      | none => Except.ok (PyValue.str moleculePriceUnavailableMsg)
      | some t => t q) ∧
    (tk.web_search_chemical q = match tk.web_search_tool with
      | none => Except.ok (PyValue.str webSearchUnavailableMsg)
      | some t => t q) ∧
    (tk.predict_reaction q = match tk.rxn_predict_tool with
      | none => Except.ok (PyValue.str predictReactionUnavailableMsg)
      | some t => t q) ∧
    (tk.retrosynthesis_planning q = match tk.rxn_retro_tool with
      | none => Except.ok (PyValue.str retrosynthesisUnavailableMsg)
      | some t => t q) := by
  refine ⟨?_, rfl, rfl, rfl, rfl, rfl, rfl, rfl, rfl, rfl, rfl, rfl, rfl, rfl, rfl, rfl⟩
  unfold ChemcrowToolkit.get_molecular_weight
  cases tk.smiles2weight_tool q with
  | error e => rfl
  | ok result => cases result <;> rfl

/-- Counterexample to claim C6: with local_rxn false, a reaction-service
credential present and the OpenAI credential absent everywhere, the
retrosynthesis handle is still constructed (the absent OpenAI credential is
passed through as None) and retrosynthesis_planning delegates instead of
returning the fixed unavailable string: the remote path does not require
the OpenAI credential for the handle to exist. -/
theorem retro_requires_openai_counterexample :
    cfgC6.openai_api_key = none ∧
    envC6.OPENAI_API_KEY = none ∧
    cfgC6.local_rxn.getD false = false ∧
    tkC6.api_keys.OPENAI_API_KEY = none ∧
    tkC6.rxn_retro_tool.isSome = true ∧
    tkC6.retrosynthesis_planning "CCO" = Except.ok (PyValue.str "retro:CCO") ∧
    tkC6.retrosynthesis_planning "CCO" ≠
      Except.ok (PyValue.str retrosynthesisUnavailableMsg) := by
  refine ⟨rfl, rfl, rfl, rfl, rfl, rfl, by decide⟩

/-- Claim C6 as amended: with local_rxn false, retrosynthesis is gated only
on the reaction-service credential, the resolved OpenAI credential being
passed through to the handle unchecked; when the reaction-service
credential is absent the handle is the absent marker and the method
returns the fixed unavailable string. -/
theorem retro_gating_amended (lib : ChemcrowLib) (cfg : ToolkitConfigMap)
    (env : Env) (tk : ChemcrowToolkit) (q : String)
    (hinit : ChemcrowToolkit.init lib cfg env = Except.ok tk)
    (hlocal : cfg.local_rxn.getD false = false) :
    tk.rxn_retro_tool =
      (if pyTruthy (resolveApiKeys cfg env).RXN4CHEM_API_KEY then
        some (lib.RXNRetrosynthesis (resolveApiKeys cfg env).RXN4CHEM_API_KEY
          (resolveApiKeys cfg env).OPENAI_API_KEY)
      else none) ∧
    tk.retrosynthesis_planning q =
      (if pyTruthy (resolveApiKeys cfg env).RXN4CHEM_API_KEY then
        lib.RXNRetrosynthesis (resolveApiKeys cfg env).RXN4CHEM_API_KEY
          (resolveApiKeys cfg env).OPENAI_API_KEY q
      else Except.ok (PyValue.str retrosynthesisUnavailableMsg)) := by
  rw [init_eq_ok] at hinit
  obtain ⟨c, hc, rfl⟩ := hinit
  constructor
  · simp [buildState, hlocal]
  · cases h : pyTruthy (resolveApiKeys cfg env).RXN4CHEM_API_KEY <;>
      simp [buildState, ChemcrowToolkit.retrosynthesis_planning, hlocal, h]

/-- Witness for the amended claim C6: with a reaction credential and no
OpenAI credential the handle is bound (with None passed through) and the
method delegates. -/
theorem retro_gating_amended_witness :
    tkC6.rxn_retro_tool = some (sampleLib.RXNRetrosynthesis (some "rxn-key") none) ∧
    tkC6.retrosynthesis_planning "CCO" = Except.ok (PyValue.str "retro:CCO") := by
  have h := retro_gating_amended sampleLib cfgC6 envC6 tkC6 "CCO" rfl rfl
  exact ⟨by rw [h.1]; rfl, by rw [h.2]; rfl⟩
